import Mathlib

/-!
# Verification of the gqg CLI (`src/main.rs`) against its specification

The repository contains one source file, `src/main.rs`: the command-line
front end of the gqg message codec.  The cryptographic core (`gqg_lib`'s
`encode` / `decode` / `Database`) is a separate crate that is not part of
this repository's sources, so it is modelled here from the specification
(symbolic model of authenticated public-key encryption); the command
functions (`execute_cmd`, `cmd_receive`, `cmd_send`) are translated from
`src/main.rs` directly.
-/

namespace Gqg

/-! ## Spec-modelled cryptographic core (`gqg_lib`)

Keys are modelled as natural numbers.  The key-agreement primitive is a
discrete-exponentiation model: a private key `p` determines the public key
`g ^ p % q`, and two parties obtain the same shared secret from
(own private, other public). -/

/-- Modelled from the spec: the modulus of the key-agreement group
(a small prime stands in for the real group order). -/
def q : Nat := 251

/-- Modelled from the spec: the fixed generator of the key-agreement group. -/
def g : Nat := 6

/-- Modelled from the spec: "every valid PrivateKey deterministically yields
exactly one PublicKey" — the public key derived from a private key. -/
def pubOf (priv : Nat) : Nat := g ^ priv % q

/-- Modelled from the spec: the per-message shared secret derived by
key agreement from one side's private key and the other side's public key. -/
def sharedSecret (priv pub : Nat) : Nat := pub ^ priv % q

/-- The key-agreement property the codec relies on: both sides derive the
same shared secret. -/
theorem sharedSecret_comm (a b : Nat) :
    sharedSecret a (pubOf b) = sharedSecret b (pubOf a) := by
  unfold sharedSecret pubOf
  rw [← Nat.pow_mod (g ^ b), ← Nat.pow_mod (g ^ a), ← pow_mul, ← pow_mul, mul_comm]

/-- Modelled from the spec: a well-formed private key (a fixed-length byte
string, modelled as a 256-bit scalar). -/
def validPrivateKey (p : Nat) : Bool := decide (p < 2 ^ 256)

/-- Modelled from the spec: a well-formed public key (format check only:
an element of the key-agreement group). -/
def validPublicKey (k : Nat) : Bool := decide (k < q)

/-- A derived public key is always well-formed. -/
theorem validPublicKey_pubOf (p : Nat) : validPublicKey (pubOf p) = true := by
  unfold validPublicKey pubOf
  exact decide_eq_true (Nat.mod_lt _ (by norm_num [q]))

/-- `gqg_lib::Type` (the payload type passed to `encode`): a message, or a
file with its name.  Named `PayloadType` as in the spec because `Type` is a
Lean keyword. -/
inductive PayloadType where
  | Message : PayloadType
  | File (file_name : String) : PayloadType
deriving DecidableEq

/-- `gqg_lib::EncodeFlags`: currently only the no-op variant `None`. -/
inductive EncodeFlags where
  | None : EncodeFlags
deriving DecidableEq

/-- Modelled from the spec: `EncodeError` — malformed key, oversized body,
or primitive failure.  The symbolic primitive has no body-size limit and no
degenerate secrets, so only `MalformedKey` is ever produced by the model. -/
inductive EncodeError where
  | MalformedKey : EncodeError
  | BodyTooLarge : EncodeError
  | PrimitiveFailure : EncodeError
deriving DecidableEq

/-- Modelled from the spec: `DecodeError` — `AuthenticationFailed` (wrong key
or corrupted/forged blob, reported identically) or `MalformedBlob`
(structurally invalid before decryption). -/
inductive DecodeError where
  | AuthenticationFailed : DecodeError
  | MalformedBlob : DecodeError
deriving DecidableEq

/-- `gqg_lib::DecodedData`: the recovered payload, mirroring `PayloadType`
but carrying the body bytes. -/
inductive DecodedData where
  | Message (contents : List Nat) : DecodedData
  | File (file_name : String) (contents : List Nat) : DecodedData
deriving DecidableEq

/-- `gqg_lib`'s decoded message: the recovered sender public key and the
recovered payload. -/
structure DecodedMessage where
  sender : Nat
  data : DecodedData
deriving DecidableEq

/-- Modelled from the spec: the encoded blob.  Every field models
*encrypted/authenticated* content — the authenticated-encryption transform is
symbolic, so the blob records the recipient public key it was bound to
(`boundTo`) and the protected plaintext `{senderPub, type tag (+ file name),
body}`.  None of these fields is observable in cleartext: the observable of a
blob without a key is `cleartextView` below. -/
structure EncodedBlob where
  boundTo : Nat
  senderPub : Nat
  ptype : PayloadType
  body : List Nat
deriving DecidableEq

/-- Modelled from the spec: `encode(senderPrivate, recipientPublic, type,
flags, body)`.  Checks key well-formedness, derives the sender public key,
and authenticated-encrypts the structured plaintext bound to the recipient
public key.  Pure function of its inputs. -/
def encode (senderPriv recipientPub : Nat) (t : PayloadType)
    (_flags : EncodeFlags) (body : List Nat) : Except EncodeError EncodedBlob :=
  if validPrivateKey senderPriv && validPublicKey recipientPub then
    .ok { boundTo := recipientPub, senderPub := pubOf senderPriv, ptype := t, body := body }
  else
    .error .MalformedKey

/-- Modelled from the spec: `decode(candidatePrivate, blob)`.  Authenticated
decryption succeeds exactly when the candidate's public key is the key the
blob was bound to ("authenticated encryption bound to a specific recipient
key"); otherwise it fails with `AuthenticationFailed`.  On success the
structured plaintext is parsed back into the sender public key and payload. -/
def decode (candPriv : Nat) (blob : EncodedBlob) : Except DecodeError DecodedMessage :=
  if pubOf candPriv = blob.boundTo then
    .ok { sender := blob.senderPub,
          data := match blob.ptype with
            | .Message => .Message blob.body
            | .File fn => .File fn blob.body }
  else
    .error .AuthenticationFailed

/-- The expected decoded payload for a given payload type and body — the
"equivalent-of(T, M)" of the spec's round-trip property. -/
def payloadOf : PayloadType → List Nat → DecodedData
  | .Message, m => .Message m
  | .File fn, m => .File fn m

/-- The bytes of a string (spec-level model of Rust `str::as_bytes`,
adequate for the ASCII strings the claims use). -/
def strBytes (s : String) : List Nat := s.data.map Char.toNat

/-- Modelled from the spec: byte length of an encoded public key inside the
protected plaintext. -/
def pubKeyLen : Nat := 32

/-- Modelled from the spec: byte length of the authentication tag the
authenticated-encryption primitive appends. -/
def macLen : Nat := 16

/-- Modelled from the spec: byte length of the payload-type tag (and, for a
file, its integrity-protected name) inside the protected plaintext. -/
def tagSize : PayloadType → Nat
  | .Message => 1
  | .File fn => 1 + (strBytes fn).length

/-- Modelled from the spec: the cleartext observable of a blob.  The blob is
"an opaque printable text string"; everything structured (recipient binding,
sender key, type tag, body) is encrypted, so an observer without a key
extracts only the total ciphertext length.  In particular no recipient
identifier occurs in cleartext. -/
def cleartextView (e : EncodedBlob) : Nat :=
  macLen + pubKeyLen + tagSize e.ptype + e.body.length

/-! ## Spec-modelled database collaborator (`gqg_lib::database::Database`)

`main.rs` consumes the database through `get_identities`, `find_friend`,
`find_friend_by_key`, `get_active_identity` and the static directory paths;
the store itself lives in `gqg_lib`, so it is modelled from the spec as flat
ordered collections. -/

/-- A local identity: a named keypair.  `privateKey` models
`Identity::get_private_key`; its public half is `pubOf privateKey`. -/
structure Identity where
  name : String
  privateKey : Nat
deriving DecidableEq

/-- A friend: a name with a stored public key (never paired with a private
key locally).  `publicKey` models `Friend::get_public_key`. -/
structure Friend where
  name : String
  publicKey : Nat
deriving DecidableEq

/-- Modelled from the spec: the flat persisted store — an ordered list of
local identities (order = storage order, as iterated by `get_identities`),
an ordered list of friends, and the active identity used for sending. -/
structure Database where
  identities : List Identity
  friends : List Friend
  activeIdentity : Identity
deriving DecidableEq

/-- Modelled from the spec: `Database::find_friend` — exact-match lookup of a
friend by name. -/
def Database.find_friend (db : Database) (name : String) : Option Friend :=
  db.friends.find? (fun f => decide (f.name = name))

/-- Modelled from the spec: `Database::find_friend_by_key` — exact-match
lookup of a friend by public key. -/
def Database.find_friend_by_key (db : Database) (k : Nat) : Option Friend :=
  db.friends.find? (fun f => decide (f.publicKey = k))

/-- Modelled from the spec: `Database::file_path_buf` — the configured
directory for received files (the concrete string is irrelevant to the
claims). -/
def filePathBuf : String := "/home/user/.local/share/gqg/files"

/-- Modelled from the spec: `Database::message_path_buf` — the configured
directory for received messages. -/
def messagePathBuf : String := "/home/user/.local/share/gqg/messages"

/-! ## CLI model, translated from `src/main.rs` -/

/-- Whether a path string is absolute (Unix semantics of Rust
`Path::is_absolute`, as used by `PathBuf::push`). -/
def isAbsolute (s : String) : Bool :=
  match s.data with
  | [] => false
  | c :: _ => c == '/'

/-- Rust `PathBuf::push`: appending an *absolute* path replaces the base
path entirely; otherwise the component is joined with a separator. -/
def pathPush (base child : String) : String :=
  if isAbsolute child then child else base ++ "/" ++ child

/-- The filesystem visible to `cmd_receive`: a list of (path, contents)
entries.  `std::fs::metadata(p).is_ok()` is `FileSys.pathExists`;
`std::fs::write` is `FileSys.write`. -/
abbrev FileSys := List (String × List Nat)

/-- A path names an existing file. -/
def FileSys.pathExists (fs : FileSys) (p : String) : Bool :=
  fs.any (fun e => decide (e.1 = p))

/-- Write a file (the model filesystem write always succeeds). -/
def FileSys.write (fs : FileSys) (p : String) (d : List Nat) : FileSys :=
  (p, d) :: fs

/-- Contents of the file at a path, if any. -/
def FileSys.read (fs : FileSys) (p : String) : Option (List Nat) :=
  (fs.find? (fun e => decide (e.1 = p))).map (fun e => e.2)

/-- The wall-clock instant `cmd_receive` reads via `chrono::Utc::now()`. -/
structure Now where
  year : Nat
  month : Nat
  day : Nat
  hour : Nat
  minute : Nat
  second : Nat
  millis : Nat
deriving DecidableEq

/-- Two-digit zero padding, the `{:02}` format used in `cmd_receive`. -/
def pad2 (n : Nat) : String := if n < 10 then "0" ++ toString n else toString n

/-- The message file name built in `cmd_receive`:
`"{name}_{year}-{month:02}-{day:02}_{hour:02}:{minute:02}:{second:02}_{millis}.txt"`. -/
def messageFileName (name : String) (now : Now) : String :=
  name ++ "_" ++ toString now.year ++ "-" ++ pad2 now.month ++ "-" ++ pad2 now.day ++ "_"
    ++ pad2 now.hour ++ ":" ++ pad2 now.minute ++ ":" ++ pad2 now.second ++ "_"
    ++ toString now.millis ++ ".txt"

/-- The parse result of the incoming blob text: the printable encoding is
reversible, so a wire string is equivalent to either a structured blob or a
malformed input (`none`). -/
abbrev Wire := Option EncodedBlob

/-- `gqg_lib::decode` on wire input: a malformed blob fails at parse time
with `MalformedBlob`, before any decryption attempt. -/
def decodeWire (candPriv : Nat) (w : Wire) : Except DecodeError DecodedMessage :=
  match w with
  | none => .error .MalformedBlob
  | some b => decode candPriv b

/-- Whether `decodeWire` succeeds for a candidate private key. -/
def decodeOk (candPriv : Nat) (w : Wire) : Bool :=
  match decodeWire candPriv w with
  | .ok _ => true
  | .error _ => false

/-- The trust label `cmd_receive` prints after a successful decode: the red
"BEWARE. Unknown sender" banner, or the green "VERIFIED: name" banner. -/
inductive TrustLabel where
  | untrusted : TrustLabel
  | verified (name : String) : TrustLabel
deriving DecidableEq

/-- The observable outcome of `cmd_receive` (paired with the resulting
filesystem): a written file whose path is printed (`Ok(())`), the
`Err("File already exists. Aborting.")` return, the terminal
`Err("Failed to decrypt.")` return, or a Rust panic from `.unwrap()` on a
failed stdin read. -/
inductive ReceiveResult where
  | written (label : TrustLabel) (path : String) : ReceiveResult
  | fileExists (label : TrustLabel) : ReceiveResult
  | cannotDecrypt : ReceiveResult
  | panicked : ReceiveResult
deriving DecidableEq

/-- The trust label computed from `db.find_friend_by_key(&msg.sender)` in
`cmd_receive` (lines 149–158 of `main.rs`). -/
def labelOf (db : Database) (msg : DecodedMessage) : TrustLabel :=
  match db.find_friend_by_key msg.sender with
  | none => .untrusted
  | some f => .verified f.name

/-- The `name` string used in the message file name: `"untrusted"` for an
unknown sender, the friend's name otherwise. -/
def senderName (db : Database) (msg : DecodedMessage) : String :=
  match db.find_friend_by_key msg.sender with
  | none => "untrusted"
  | some f => f.name

/-- The output path `cmd_receive` computes (lines 159–184): the message
directory joined with the timestamped name for a message, or the file
directory joined — by `PathBuf::push`, unsanitized — with the embedded file
name for a file. -/
def outPathOf (db : Database) (now : Now) (msg : DecodedMessage) : String :=
  match msg.data with
  | .Message _ => pathPush messagePathBuf (messageFileName (senderName db msg) now)
  | .File fn _ => pathPush filePathBuf fn

/-- The bytes `cmd_receive` writes: the recovered contents of either payload
kind. -/
def dataOf (msg : DecodedMessage) : List Nat :=
  match msg.data with
  | .Message contents => contents
  | .File _ contents => contents

/-- The body of `cmd_receive`'s success branch (lines 148–190): print the
trust banner, compute the output path, refuse to overwrite an existing file,
otherwise write the data and print the path. -/
def handleMsg (db : Database) (fs : FileSys) (now : Now) (msg : DecodedMessage) :
    ReceiveResult × FileSys :=
  if FileSys.pathExists fs (outPathOf db now msg) then
    (.fileExists (labelOf db msg), fs)
  else
    (.written (labelOf db msg) (outPathOf db now msg),
     FileSys.write fs (outPathOf db now msg) (dataOf msg))

/-- The trial loop of `cmd_receive` (line 147): try each local identity's
private key in storage order; the first successful decode is handled, and if
every identity fails the command returns `Err("Failed to decrypt.")`. -/
def receiveLoop (db : Database) (fs : FileSys) (now : Now) (w : Wire) :
    List Identity → ReceiveResult × FileSys
  | [] => (.cannotDecrypt, fs)
  | id :: rest =>
    match decodeWire id.privateKey w with
    | .ok msg => handleMsg db fs now msg
    | .error _ => receiveLoop db fs now w rest

/-- `cmd_receive` (lines 144–194).  `stdin` models
`std::io::stdin().read_to_string(...)`: `none` is a failed read (I/O error
or non-UTF-8 input), on which the source calls `.unwrap()` and panics. -/
def cmd_receive (db : Database) (fs : FileSys) (now : Now) (stdin : Option Wire) :
    ReceiveResult × FileSys :=
  match stdin with
  | none => (.panicked, fs)
  | some w => receiveLoop db fs now w db.identities

/-- The first decoded message of the ordered trial, if any: the message
recovered by the first identity (in storage order) whose decode succeeds. -/
def firstDecode (w : Wire) : List Identity → Option DecodedMessage
  | [] => none
  | id :: rest =>
    match decodeWire id.privateKey w with
    | .ok msg => some msg
    | .error _ => firstDecode w rest

/-- The observable outcome of `cmd_send`: the encoded blob printed to
stdout (`Ok(())`), `Err("Friend not found.")`, `Err("GQG library: ...")`,
the usage-and-exit path of the `arg!` macro, or a Rust panic from
`.unwrap()` on a failed stdin read. -/
inductive SendResult where
  | printed (blob : EncodedBlob) : SendResult
  | friendNotFound : SendResult
  | libError (err : EncodeError) : SendResult
  | helpExit : SendResult
  | panicked : SendResult
deriving DecidableEq

/-- `cmd_send` (lines 196–224): require the friend-name argument (else the
`arg!` macro prints usage and exits), read stdin (`.unwrap()`: a failed read
panics), look up the friend, and encode a `Message` payload from the active
identity to the friend's public key with `EncodeFlags::None`. -/
def cmd_send (args : List String) (db : Database) (stdin : Option String) : SendResult :=
  if 2 < args.length then
    let name := args.getD 2 ""
    match stdin with
    | none => .panicked
    | some contents =>
      match db.find_friend name with
      | none => .friendNotFound
      | some friend =>
        match encode db.activeIdentity.privateKey friend.publicKey
            PayloadType.Message EncodeFlags.None (strBytes contents) with
        | .error err => .libError err
        | .ok msg => .printed msg
  else
    .helpExit

/-- The outcome of `execute_cmd`.  The identity/friend bookkeeping commands
(`list`, `newid`, `befriend`, `unfriend`, `dirs`, `active`) and `sendfile`
delegate their behavior to `gqg_lib`'s `Database` and are not touched by any
claim; they are represented by the dispatched command name only. -/
inductive CmdOutcome where
  | receiveOut (r : ReceiveResult × FileSys) : CmdOutcome
  | sendOut (r : SendResult) : CmdOutcome
  | otherCmd (name : String) : CmdOutcome
  | helpShown : CmdOutcome
deriving DecidableEq

/-- `execute_cmd` (lines 56–92): take the first CLI argument after the
program name as the action, defaulting to `"receive"` when none is given,
and dispatch on it; an unrecognized action prints usage and exits. -/
def execute_cmd (args : List String) (db : Database) (fs : FileSys) (now : Now)
    (stdin : Option Wire) (stdinText : Option String) : CmdOutcome :=
  let action := if 1 < args.length then args.getD 1 "" else "receive"
  if action = "list" then .otherCmd "list"
  else if action = "newid" then .otherCmd "newid"
  else if action = "befriend" then .otherCmd "befriend"
  else if action = "unfriend" then .otherCmd "unfriend"
  else if action = "recv" ∨ action = "receive" then .receiveOut (cmd_receive db fs now stdin)
  else if action = "send" then .sendOut (cmd_send args db stdinText)
  else if action = "sendfile" then .otherCmd "sendfile"
  else if action = "dirs" then .otherCmd "dirs"
  else if action = "active" then .otherCmd "active"
  else .helpShown

/-! ## Helper lemmas -/

/-- Inversion of a successful `encode`: the produced blob is the structured
plaintext bound to the recipient key. -/
theorem encode_ok_inv (s r : Nat) (t : PayloadType) (f : EncodeFlags) (m : List Nat)
    (e : EncodedBlob) (h : encode s r t f m = .ok e) :
    e = { boundTo := r, senderPub := pubOf s, ptype := t, body := m } := by
  unfold encode at h
  split at h
  · exact (Except.ok.inj h).symm
  · exact Except.noConfusion h

/-- Inversion of a successful `decode`: the candidate's public key is the key
the blob was bound to. -/
theorem decode_ok_boundTo (p : Nat) (b : EncodedBlob) (m : DecodedMessage)
    (h : decode p b = .ok m) : pubOf p = b.boundTo := by
  unfold decode at h
  split at h
  · assumption
  · exact Except.noConfusion h

/-! ## Claim theorems -/

/-- C1 (round-trip / type fidelity): for every pair of valid keypairs A and
B, every payload type, every flags value and every body, `encode` with A's
private key to B's public key succeeds, and decoding the produced blob with
B's private key succeeds and returns sender = A's public key and the payload
`(T, M)` exactly — same file name and contents for a `File`, same text for a
`Message`. -/
theorem round_trip (aPriv bPriv : Nat) (t : PayloadType) (flags : EncodeFlags)
    (m : List Nat) (ha : validPrivateKey aPriv = true) :
    encode aPriv (pubOf bPriv) t flags m =
      .ok { boundTo := pubOf bPriv, senderPub := pubOf aPriv, ptype := t, body := m } ∧
    decode bPriv { boundTo := pubOf bPriv, senderPub := pubOf aPriv, ptype := t, body := m } =
      .ok { sender := pubOf aPriv, data := payloadOf t m } := by
  constructor
  · unfold encode
    rw [ha, validPublicKey_pubOf]
    rfl
  · cases t <;> simp [decode, payloadOf]

/-- Witness for C1 at keypairs 3 and 5, a `File "report.pdf"` payload with
body `[1, 2, 3]`. -/
theorem round_trip_witness :
    validPrivateKey 3 = true ∧
    (encode 3 (pubOf 5) (PayloadType.File "report.pdf") EncodeFlags.None [1, 2, 3] =
      .ok { boundTo := pubOf 5, senderPub := pubOf 3,
            ptype := PayloadType.File "report.pdf", body := [1, 2, 3] } ∧
    decode 5 { boundTo := pubOf 5, senderPub := pubOf 3,
               ptype := PayloadType.File "report.pdf", body := [1, 2, 3] } =
      .ok { sender := pubOf 3,
            data := payloadOf (PayloadType.File "report.pdf") [1, 2, 3] }) :=
  ⟨rfl, round_trip 3 5 (PayloadType.File "report.pdf") EncodeFlags.None [1, 2, 3] rfl⟩

/-- C2 (recipient binding): for keypairs A, B, C with B's public key
different from C's, decoding a blob encoded to B with C's private key fails
with `AuthenticationFailed`; and any two private keys that both successfully
decode the same blob belong to the same public identity — at most one local
identity can decode a valid blob. -/
theorem recipient_binding (aPriv bPriv cPriv p1 p2 : Nat) (t : PayloadType)
    (flags : EncodeFlags) (m : List Nat) (e blob : EncodedBlob) (m1 m2 : DecodedMessage)
    (hne : pubOf bPriv ≠ pubOf cPriv)
    (henc : encode aPriv (pubOf bPriv) t flags m = .ok e)
    (h1 : decode p1 blob = .ok m1) (h2 : decode p2 blob = .ok m2) :
    decode cPriv e = .error DecodeError.AuthenticationFailed ∧ pubOf p1 = pubOf p2 := by
  have he := encode_ok_inv _ _ _ _ _ _ henc
  subst he
  refine ⟨?_, ?_⟩
  · simp [decode, hne.symm]
  · rw [decode_ok_boundTo p1 blob m1 h1, decode_ok_boundTo p2 blob m2 h2]

/-- Witness for C2 at keypairs 3 (sender), 5 (recipient) and 7 (wrong
recipient), with the produced blob also serving as the doubly decoded blob. -/
theorem recipient_binding_witness :
    pubOf 5 ≠ pubOf 7 ∧
    encode 3 (pubOf 5) PayloadType.Message EncodeFlags.None [9] =
      .ok { boundTo := pubOf 5, senderPub := pubOf 3,
            ptype := PayloadType.Message, body := [9] } ∧
    decode 5 { boundTo := pubOf 5, senderPub := pubOf 3,
               ptype := PayloadType.Message, body := [9] } =
      .ok { sender := pubOf 3, data := DecodedData.Message [9] } ∧
    (decode 7 { boundTo := pubOf 5, senderPub := pubOf 3,
                ptype := PayloadType.Message, body := [9] } =
      .error DecodeError.AuthenticationFailed ∧ pubOf 5 = pubOf 5) :=
  ⟨by decide, rfl, rfl,
    recipient_binding 3 5 7 5 5 PayloadType.Message EncodeFlags.None [9]
      { boundTo := pubOf 5, senderPub := pubOf 3,
        ptype := PayloadType.Message, body := [9] }
      { boundTo := pubOf 5, senderPub := pubOf 3,
        ptype := PayloadType.Message, body := [9] }
      { sender := pubOf 3, data := DecodedData.Message [9] }
      { sender := pubOf 3, data := DecodedData.Message [9] }
      (by decide) rfl rfl rfl⟩

/-- C3 (anonymity of the cleartext): the cleartext observable of a blob
produced by `encode` is the same for any two recipients (indeed for any two
senders and equal-length bodies of the same payload type): no recipient
identifier occurs in the cleartext structure, and two blobs from the same
sender and body to two different recipients cannot be linked by inspecting
cleartext alone. -/
theorem cleartext_anonymity (a1 a2 b1 b2 : Nat) (t : PayloadType)
    (f1 f2 : EncodeFlags) (m1 m2 : List Nat) (e1 e2 : EncodedBlob)
    (h1 : encode a1 b1 t f1 m1 = .ok e1) (h2 : encode a2 b2 t f2 m2 = .ok e2)
    (hm : m1.length = m2.length) :
    cleartextView e1 = cleartextView e2 := by
  have k1 := encode_ok_inv _ _ _ _ _ _ h1
  have k2 := encode_ok_inv _ _ _ _ _ _ h2
  subst k1; subst k2
  simp [cleartextView, hm]

/-- Witness for C3: the same sender (key 3) and body encoded to the two
different recipients 5 and 7 yields blobs with equal cleartext observables. -/
theorem cleartext_anonymity_witness :
    encode 3 (pubOf 5) PayloadType.Message EncodeFlags.None [9, 8] =
      .ok { boundTo := pubOf 5, senderPub := pubOf 3,
            ptype := PayloadType.Message, body := [9, 8] } ∧
    encode 3 (pubOf 7) PayloadType.Message EncodeFlags.None [9, 8] =
      .ok { boundTo := pubOf 7, senderPub := pubOf 3,
            ptype := PayloadType.Message, body := [9, 8] } ∧
    cleartextView { boundTo := pubOf 5, senderPub := pubOf 3,
                    ptype := PayloadType.Message, body := [9, 8] } =
      cleartextView { boundTo := pubOf 7, senderPub := pubOf 3,
                      ptype := PayloadType.Message, body := [9, 8] } :=
  ⟨rfl, rfl,
    cleartext_anonymity 3 3 (pubOf 5) (pubOf 7) PayloadType.Message
      EncodeFlags.None EncodeFlags.None [9, 8] [9, 8] _ _ rfl rfl rfl⟩

/-- Failing identities at the head of the candidate list are skipped by the
trial loop. -/
theorem receiveLoop_skip_failures (db : Database) (fs : FileSys) (now : Now) (w : Wire) :
    ∀ (xs rest : List Identity), xs.all (fun x => !decodeOk x.privateKey w) = true →
      receiveLoop db fs now w (xs ++ rest) = receiveLoop db fs now w rest := by
  intro xs
  induction xs with
  | nil => intro rest _; rfl
  | cons x xs ih =>
    intro rest hall
    rw [List.all_cons, Bool.and_eq_true] at hall
    have hx := hall.1
    rw [List.cons_append]
    cases hd : decodeWire x.privateKey w with
    | ok msg =>
      exfalso
      unfold decodeOk at hx
      rw [hd] at hx
      simp at hx
    | error er =>
      simp only [receiveLoop, hd]
      exact ih rest hall.2

/-- If every candidate identity fails, the trial loop returns the single
terminal failure and leaves the filesystem unchanged. -/
theorem receiveLoop_all_fail (db : Database) (fs : FileSys) (now : Now) (w : Wire)
    (ids : List Identity) (h : ids.all (fun x => !decodeOk x.privateKey w) = true) :
    receiveLoop db fs now w ids = (.cannotDecrypt, fs) := by
  have h2 := receiveLoop_skip_failures db fs now w ids [] h
  rw [List.append_nil] at h2
  exact h2

/-- The trial loop's outcome is `handleMsg` applied to the first
successfully decoded message. -/
theorem receiveLoop_of_firstDecode (db : Database) (fs : FileSys) (now : Now) (w : Wire) :
    ∀ (ids : List Identity) (msg : DecodedMessage), firstDecode w ids = some msg →
      receiveLoop db fs now w ids = handleMsg db fs now msg := by
  intro ids
  induction ids with
  | nil => intro msg h; exact Option.noConfusion h
  | cons x xs ih =>
    intro msg h
    cases hd : decodeWire x.privateKey w with
    | ok m =>
      simp only [firstDecode, hd] at h
      obtain rfl : m = msg := Option.some.inj h
      simp only [receiveLoop, hd]
    | error er =>
      simp only [firstDecode, hd] at h
      simp only [receiveLoop, hd]
      exact ih msg h

/-- The filesystem after `cmd_receive` is either unchanged or extended by a
single write to a path that did not previously exist. -/
theorem receiveLoop_fs (db : Database) (fs : FileSys) (now : Now) (w : Wire) :
    ∀ ids : List Identity,
      (receiveLoop db fs now w ids).2 = fs ∨
      ∃ p d, FileSys.pathExists fs p = false ∧
        (receiveLoop db fs now w ids).2 = FileSys.write fs p d := by
  intro ids
  induction ids with
  | nil => exact Or.inl rfl
  | cons x xs ih =>
    cases hd : decodeWire x.privateKey w with
    | error er =>
      simp only [receiveLoop, hd]
      exact ih
    | ok m =>
      simp only [receiveLoop, hd]
      unfold handleMsg
      cases hex : FileSys.pathExists fs (outPathOf db now m) with
      | true => exact Or.inl (by simp [hex])
      | false =>
        refine Or.inr ⟨outPathOf db now m, dataOf m, hex, ?_⟩
        simp [hex]

/-- The filesystem after `cmd_receive` is either unchanged or extended by a
single write to a path that did not previously exist. -/
theorem cmd_receive_fs (db : Database) (fs : FileSys) (now : Now) (stdin : Option Wire) :
    (cmd_receive db fs now stdin).2 = fs ∨
    ∃ p d, FileSys.pathExists fs p = false ∧
      (cmd_receive db fs now stdin).2 = FileSys.write fs p d := by
  cases stdin with
  | none => exact Or.inl rfl
  | some w => exact receiveLoop_fs db fs now w db.identities

/-- Writing to a fresh path does not change the contents read at any
existing path. -/
theorem read_preserved (fs : FileSys) (p pth : String) (d : List Nat)
    (hp : FileSys.pathExists fs p = true) (hpth : FileSys.pathExists fs pth = false) :
    FileSys.read (FileSys.write fs pth d) p = FileSys.read fs p := by
  have hne : ¬(pth = p) := by
    intro h
    subst h
    rw [hp] at hpth
    exact Bool.noConfusion hpth
  unfold FileSys.read FileSys.write
  rw [List.find?_cons_of_neg]
  simpa using hne

/-- C4 (trial ordering determinism): the receive pipeline tries each local
identity's private key sequentially in storage order and its outcome is the
handling of the message decoded by the first identity whose decode succeeds
— here `y`, after the failing prefix `xs` and regardless of the remaining
identities `zs` — never attributing success to any other identity. -/
theorem trial_ordering (db : Database) (fs : FileSys) (now : Now) (w : Wire)
    (xs zs : List Identity) (y : Identity) (msg : DecodedMessage)
    (hids : db.identities = xs ++ y :: zs)
    (hxs : xs.all (fun x => !decodeOk x.privateKey w) = true)
    (hy : decodeWire y.privateKey w = .ok msg) :
    cmd_receive db fs now (some w) = handleMsg db fs now msg := by
  show receiveLoop db fs now w db.identities = _
  rw [hids, receiveLoop_skip_failures db fs now w xs (y :: zs) hxs]
  simp only [receiveLoop, hy]

/-- Witness for C4: identities `[X, Y, Z]` (keys 3, 5, 7) and a blob only
`Y`'s key can open; the outcome is the handling of `Y`'s decoded message. -/
theorem trial_ordering_witness :
    (Database.mk [Identity.mk "x" 3, Identity.mk "y" 5, Identity.mk "z" 7] []
        (Identity.mk "x" 3)).identities =
      [Identity.mk "x" 3] ++ Identity.mk "y" 5 :: [Identity.mk "z" 7] ∧
    [Identity.mk "x" 3].all (fun x => !decodeOk x.privateKey
        (some (EncodedBlob.mk (pubOf 5) 42 PayloadType.Message [104, 105]))) = true ∧
    decodeWire 5 (some (EncodedBlob.mk (pubOf 5) 42 PayloadType.Message [104, 105])) =
      .ok (DecodedMessage.mk 42 (DecodedData.Message [104, 105])) ∧
    cmd_receive
        (Database.mk [Identity.mk "x" 3, Identity.mk "y" 5, Identity.mk "z" 7] []
          (Identity.mk "x" 3)) [] (Now.mk 2026 1 2 3 4 5 6)
        (some (some (EncodedBlob.mk (pubOf 5) 42 PayloadType.Message [104, 105]))) =
      handleMsg
        (Database.mk [Identity.mk "x" 3, Identity.mk "y" 5, Identity.mk "z" 7] []
          (Identity.mk "x" 3)) [] (Now.mk 2026 1 2 3 4 5 6)
        (DecodedMessage.mk 42 (DecodedData.Message [104, 105])) :=
  ⟨rfl, rfl, rfl,
    trial_ordering _ [] (Now.mk 2026 1 2 3 4 5 6)
      (some (EncodedBlob.mk (pubOf 5) 42 PayloadType.Message [104, 105]))
      [Identity.mk "x" 3] [Identity.mk "z" 7] (Identity.mk "y" 5)
      (DecodedMessage.mk 42 (DecodedData.Message [104, 105])) rfl rfl rfl⟩

/-- C5 (single terminal failure): when no local identity's key can decode
the input blob, `cmd_receive` returns exactly the one terminal failure
(`Err("Failed to decrypt.")`), a value independent of which and how many
candidate keys were attempted, with no per-identity partial progress and the
filesystem untouched. -/
theorem single_terminal_failure (db : Database) (fs : FileSys) (now : Now) (w : Wire)
    (h : db.identities.all (fun x => !decodeOk x.privateKey w) = true) :
    cmd_receive db fs now (some w) = (ReceiveResult.cannotDecrypt, fs) := by
  show receiveLoop db fs now w db.identities = _
  exact receiveLoop_all_fail db fs now w db.identities h

/-- Witness for C5: one local identity (key 3), a blob bound to a different
key; the result is the single terminal failure. -/
theorem single_terminal_failure_witness :
    (Database.mk [Identity.mk "me" 3] [] (Identity.mk "me" 3)).identities.all
      (fun x => !decodeOk x.privateKey
        (some (EncodedBlob.mk (pubOf 5) 42 PayloadType.Message [1]))) = true ∧
    cmd_receive (Database.mk [Identity.mk "me" 3] [] (Identity.mk "me" 3)) []
        (Now.mk 2026 1 2 3 4 5 6)
        (some (some (EncodedBlob.mk (pubOf 5) 42 PayloadType.Message [1]))) =
      (ReceiveResult.cannotDecrypt, []) :=
  ⟨rfl,
    single_terminal_failure (Database.mk [Identity.mk "me" 3] [] (Identity.mk "me" 3))
      [] (Now.mk 2026 1 2 3 4 5 6)
      (some (EncodedBlob.mk (pubOf 5) 42 PayloadType.Message [1])) rfl⟩

/-- C6 (trust labeling is advisory): the friend lookup happens only after a
successful decode and affects only the trust label.  A sender unknown to the
friend store never causes delivery to be skipped: the payload is still
written, labeled untrusted; and with the same identities but a friend store
that knows the sender, the same message is delivered the same way, only with
the verified label. -/
theorem trust_label_advisory (db db2 : Database) (fs : FileSys) (now : Now) (w : Wire)
    (msg : DecodedMessage) (fr : Friend)
    (hdec : firstDecode w db.identities = some msg)
    (hunk : db.find_friend_by_key msg.sender = none)
    (hfree : FileSys.pathExists fs (outPathOf db now msg) = false)
    (hids2 : db2.identities = db.identities)
    (hkn : db2.find_friend_by_key msg.sender = some fr)
    (hfree2 : FileSys.pathExists fs (outPathOf db2 now msg) = false) :
    cmd_receive db fs now (some w) =
      (ReceiveResult.written TrustLabel.untrusted (outPathOf db now msg),
       FileSys.write fs (outPathOf db now msg) (dataOf msg)) ∧
    cmd_receive db2 fs now (some w) =
      (ReceiveResult.written (TrustLabel.verified fr.name) (outPathOf db2 now msg),
       FileSys.write fs (outPathOf db2 now msg) (dataOf msg)) := by
  constructor
  · rw [show cmd_receive db fs now (some w) = receiveLoop db fs now w db.identities from rfl,
      receiveLoop_of_firstDecode db fs now w db.identities msg hdec]
    unfold handleMsg
    rw [hfree]
    simp [labelOf, hunk]
  · have hdec2 : firstDecode w db2.identities = some msg := by rw [hids2]; exact hdec
    rw [show cmd_receive db2 fs now (some w) = receiveLoop db2 fs now w db2.identities from rfl,
      receiveLoop_of_firstDecode db2 fs now w db2.identities msg hdec2]
    unfold handleMsg
    rw [hfree2]
    simp [labelOf, hkn]

/-- Witness for C6: a `File "a.txt"` payload from sender key 99; the sender
is unknown in the first store and a friend named "bob" in the second. -/
theorem trust_label_advisory_witness :
    firstDecode (some (EncodedBlob.mk (pubOf 3) 99 (PayloadType.File "a.txt") [7]))
      (Database.mk [Identity.mk "me" 3] [] (Identity.mk "me" 3)).identities =
      some (DecodedMessage.mk 99 (DecodedData.File "a.txt" [7])) ∧
    (Database.mk [Identity.mk "me" 3] [] (Identity.mk "me" 3)).find_friend_by_key 99 =
      none ∧
    (Database.mk [Identity.mk "me" 3] [Friend.mk "bob" 99]
        (Identity.mk "me" 3)).find_friend_by_key 99 = some (Friend.mk "bob" 99) ∧
    cmd_receive (Database.mk [Identity.mk "me" 3] [] (Identity.mk "me" 3)) []
        (Now.mk 2026 1 2 3 4 5 6)
        (some (some (EncodedBlob.mk (pubOf 3) 99 (PayloadType.File "a.txt") [7]))) =
      (ReceiveResult.written TrustLabel.untrusted
        (outPathOf (Database.mk [Identity.mk "me" 3] [] (Identity.mk "me" 3))
          (Now.mk 2026 1 2 3 4 5 6) (DecodedMessage.mk 99 (DecodedData.File "a.txt" [7]))),
       FileSys.write []
        (outPathOf (Database.mk [Identity.mk "me" 3] [] (Identity.mk "me" 3))
          (Now.mk 2026 1 2 3 4 5 6) (DecodedMessage.mk 99 (DecodedData.File "a.txt" [7])))
        (dataOf (DecodedMessage.mk 99 (DecodedData.File "a.txt" [7])))) ∧
    cmd_receive (Database.mk [Identity.mk "me" 3] [Friend.mk "bob" 99] (Identity.mk "me" 3))
        [] (Now.mk 2026 1 2 3 4 5 6)
        (some (some (EncodedBlob.mk (pubOf 3) 99 (PayloadType.File "a.txt") [7]))) =
      (ReceiveResult.written (TrustLabel.verified "bob")
        (outPathOf
          (Database.mk [Identity.mk "me" 3] [Friend.mk "bob" 99] (Identity.mk "me" 3))
          (Now.mk 2026 1 2 3 4 5 6) (DecodedMessage.mk 99 (DecodedData.File "a.txt" [7]))),
       FileSys.write []
        (outPathOf
          (Database.mk [Identity.mk "me" 3] [Friend.mk "bob" 99] (Identity.mk "me" 3))
          (Now.mk 2026 1 2 3 4 5 6) (DecodedMessage.mk 99 (DecodedData.File "a.txt" [7])))
        (dataOf (DecodedMessage.mk 99 (DecodedData.File "a.txt" [7])))) := by
  refine ⟨rfl, rfl, rfl, ?_⟩
  exact trust_label_advisory
    (Database.mk [Identity.mk "me" 3] [] (Identity.mk "me" 3))
    (Database.mk [Identity.mk "me" 3] [Friend.mk "bob" 99] (Identity.mk "me" 3))
    [] (Now.mk 2026 1 2 3 4 5 6)
    (some (EncodedBlob.mk (pubOf 3) 99 (PayloadType.File "a.txt") [7]))
    (DecodedMessage.mk 99 (DecodedData.File "a.txt" [7])) (Friend.mk "bob" 99)
    rfl rfl rfl rfl rfl rfl

/-- C7 (no overwrite): if the first successful decode's computed output path
already names an existing file, `cmd_receive` returns the
`Err("File already exists. Aborting.")` error with the filesystem unchanged;
and, whatever the input, the contents of any pre-existing path are preserved
— receive never overwrites an existing file. -/
theorem no_overwrite (db : Database) (fs : FileSys) (now : Now) (w : Wire)
    (msg : DecodedMessage) (stdin2 : Option Wire) (p : String)
    (hdec : firstDecode w db.identities = some msg)
    (hex : FileSys.pathExists fs (outPathOf db now msg) = true)
    (hp : FileSys.pathExists fs p = true) :
    cmd_receive db fs now (some w) = (ReceiveResult.fileExists (labelOf db msg), fs) ∧
    FileSys.read (cmd_receive db fs now stdin2).2 p = FileSys.read fs p := by
  constructor
  · rw [show cmd_receive db fs now (some w) = receiveLoop db fs now w db.identities from rfl,
      receiveLoop_of_firstDecode db fs now w db.identities msg hdec]
    simp [handleMsg, hex]
  · rcases cmd_receive_fs db fs now stdin2 with h | ⟨pth, d, hpth, h⟩
    · rw [h]
    · rw [h]
      exact read_preserved fs p pth d hp hpth

/-- Witness for C7: the output path of the decoded `File "a.txt"` payload
already exists; receive reports the error and the file's contents survive. -/
theorem no_overwrite_witness :
    firstDecode (some (EncodedBlob.mk (pubOf 3) 99 (PayloadType.File "a.txt") [7]))
      (Database.mk [Identity.mk "me" 3] [] (Identity.mk "me" 3)).identities =
      some (DecodedMessage.mk 99 (DecodedData.File "a.txt" [7])) ∧
    FileSys.pathExists [(pathPush filePathBuf "a.txt", [1])]
      (outPathOf (Database.mk [Identity.mk "me" 3] [] (Identity.mk "me" 3))
        (Now.mk 2026 1 2 3 4 5 6)
        (DecodedMessage.mk 99 (DecodedData.File "a.txt" [7]))) = true ∧
    (cmd_receive (Database.mk [Identity.mk "me" 3] [] (Identity.mk "me" 3))
        [(pathPush filePathBuf "a.txt", [1])] (Now.mk 2026 1 2 3 4 5 6)
        (some (some (EncodedBlob.mk (pubOf 3) 99 (PayloadType.File "a.txt") [7]))) =
      (ReceiveResult.fileExists
        (labelOf (Database.mk [Identity.mk "me" 3] [] (Identity.mk "me" 3))
          (DecodedMessage.mk 99 (DecodedData.File "a.txt" [7]))),
       [(pathPush filePathBuf "a.txt", [1])]) ∧
    FileSys.read
        (cmd_receive (Database.mk [Identity.mk "me" 3] [] (Identity.mk "me" 3))
          [(pathPush filePathBuf "a.txt", [1])] (Now.mk 2026 1 2 3 4 5 6)
          (some (some (EncodedBlob.mk (pubOf 3) 99 (PayloadType.File "a.txt") [7])))).2
        (pathPush filePathBuf "a.txt") =
      FileSys.read [(pathPush filePathBuf "a.txt", [1])] (pathPush filePathBuf "a.txt")) := by
  refine ⟨rfl, rfl, ?_⟩
  exact no_overwrite (Database.mk [Identity.mk "me" 3] [] (Identity.mk "me" 3))
    [(pathPush filePathBuf "a.txt", [1])] (Now.mk 2026 1 2 3 4 5 6)
    (some (EncodedBlob.mk (pubOf 3) 99 (PayloadType.File "a.txt") [7]))
    (DecodedMessage.mk 99 (DecodedData.File "a.txt" [7]))
    (some (some (EncodedBlob.mk (pubOf 3) 99 (PayloadType.File "a.txt") [7])))
    (pathPush filePathBuf "a.txt") rfl rfl rfl

/-- C8 counterexample: the claim "no operation terminates through an
uncatchable fault such as a panic, for any input" is false for the code.
`cmd_receive` calls `std::io::stdin().read_to_string(...).unwrap()`
(main.rs line 146): when the read fails — e.g. stdin delivers the byte
`0xFF`, which is not valid UTF-8, so `read_to_string` returns `Err` — the
`.unwrap()` panics.  The failed read is `stdin = none` in the model, and the
command ends in the panic outcome instead of a returned error value.
(`cmd_send` line 199 has the same `.unwrap()`, and line 188 unwraps
`std::fs::write`.) -/
theorem panic_on_stdin_read_failure :
    cmd_receive (Database.mk [Identity.mk "me" 3] [] (Identity.mk "me" 3)) []
        (Now.mk 2026 1 2 3 4 5 6) none =
      (ReceiveResult.panicked, []) := rfl

/-- C8 as amended: all receive/send failures after a *successful* stdin read
are returned as error values — with stdin read (and the modelled filesystem
write succeeding), neither `cmd_receive` nor `cmd_send` ever reaches the
panic outcome; only a failed stdin read (or a failed `std::fs::write`, not
modelled) terminates the command with an uncatchable panic via `.unwrap()`. -/
theorem errors_are_values_after_stdin_read (db : Database) (fs : FileSys) (now : Now)
    (w : Wire) (args : List String) (s : String) :
    (cmd_receive db fs now (some w)).1 ≠ ReceiveResult.panicked ∧
    cmd_send args db (some s) ≠ SendResult.panicked := by
  constructor
  · show (receiveLoop db fs now w db.identities).1 ≠ _
    induction db.identities with
    | nil => simp [receiveLoop]
    | cons x xs ih =>
      cases hd : decodeWire x.privateKey w with
      | error er =>
        simpa only [receiveLoop, hd] using ih
      | ok m =>
        simp only [receiveLoop, hd]
        unfold handleMsg
        cases hex : FileSys.pathExists fs (outPathOf db now m) <;> simp [hex]
  · unfold cmd_send
    split
    · split
      · simp_all
      · dsimp only
        split
        · simp
        · split <;> simp
    · simp

/-- C9 (unsanitized file destination): a successfully decoded `File` payload
is written to the file directory joined with the embedded file name exactly
as recovered, by `PathBuf::push` semantics with no sanitization — and for
any absolute embedded file name the resulting destination is that absolute
path itself, outside the file directory. -/
theorem file_dest_unsanitized (db : Database) (fs : FileSys) (now : Now) (w : Wire)
    (sender : Nat) (fn fn2 : String) (contents : List Nat)
    (hdec : firstDecode w db.identities =
      some (DecodedMessage.mk sender (DecodedData.File fn contents)))
    (hfree : FileSys.pathExists fs (pathPush filePathBuf fn) = false)
    (habs : isAbsolute fn2 = true) :
    cmd_receive db fs now (some w) =
      (ReceiveResult.written
        (labelOf db (DecodedMessage.mk sender (DecodedData.File fn contents)))
        (pathPush filePathBuf fn),
       FileSys.write fs (pathPush filePathBuf fn) contents) ∧
    pathPush filePathBuf fn2 = fn2 := by
  constructor
  · rw [show cmd_receive db fs now (some w) = receiveLoop db fs now w db.identities from rfl,
      receiveLoop_of_firstDecode db fs now w db.identities _ hdec]
    have hout : outPathOf db now (DecodedMessage.mk sender (DecodedData.File fn contents)) =
        pathPush filePathBuf fn := rfl
    unfold handleMsg
    rw [hout, hfree]
    simp [dataOf]
  · unfold pathPush
    rw [habs]
    simp

/-- Witness for C9: the embedded file name `"/tmp/evil"` is absolute, so the
computed destination is `"/tmp/evil"` itself, outside the file directory. -/
theorem file_dest_unsanitized_witness :
    firstDecode (some (EncodedBlob.mk (pubOf 3) 99 (PayloadType.File "/tmp/evil") [7]))
      (Database.mk [Identity.mk "me" 3] [] (Identity.mk "me" 3)).identities =
      some (DecodedMessage.mk 99 (DecodedData.File "/tmp/evil" [7])) ∧
    isAbsolute "/tmp/evil" = true ∧
    (cmd_receive (Database.mk [Identity.mk "me" 3] [] (Identity.mk "me" 3)) []
        (Now.mk 2026 1 2 3 4 5 6)
        (some (some (EncodedBlob.mk (pubOf 3) 99 (PayloadType.File "/tmp/evil") [7]))) =
      (ReceiveResult.written
        (labelOf (Database.mk [Identity.mk "me" 3] [] (Identity.mk "me" 3))
          (DecodedMessage.mk 99 (DecodedData.File "/tmp/evil" [7])))
        (pathPush filePathBuf "/tmp/evil"),
       FileSys.write [] (pathPush filePathBuf "/tmp/evil") [7]) ∧
    pathPush filePathBuf "/tmp/evil" = "/tmp/evil") := by
  refine ⟨rfl, rfl, ?_⟩
  exact file_dest_unsanitized
    (Database.mk [Identity.mk "me" 3] [] (Identity.mk "me" 3)) []
    (Now.mk 2026 1 2 3 4 5 6)
    (some (EncodedBlob.mk (pubOf 3) 99 (PayloadType.File "/tmp/evil") [7]))
    99 "/tmp/evil" "/tmp/evil" [7] rfl rfl rfl

/-- C10 (default action): invoking the program with no subcommand argument
dispatches to the receive pipeline — behaviorally identical to invoking the
`receive` subcommand. -/
theorem default_command_is_receive (prog : String) (db : Database) (fs : FileSys)
    (now : Now) (stdin : Option Wire) (stdinText : Option String) :
    execute_cmd [prog] db fs now stdin stdinText =
      CmdOutcome.receiveOut (cmd_receive db fs now stdin) ∧
    execute_cmd [prog] db fs now stdin stdinText =
      execute_cmd [prog, "receive"] db fs now stdin stdinText := by
  exact ⟨rfl, rfl⟩
